import Mathlib

/-!
Shallow embedding of the fastify-ddb ski-lift CRUD service
(`src/services/skilift.service.ts`, `src/schemas/skilift.schemas.ts`,
`src/routes/skilift.routes.ts`, `src/utils/error-handler.ts`) over a
functional model of the DynamoDB document store declared in
`scripts/setup-local-db.ts` (table keyed by the strings Lift and Metadata,
secondary index SkiLiftsByRiders keyed by Lift and the number
TotalUniqueLiftRiders). JavaScript numbers are modelled as rationals,
store items as a primary key plus an association list of attributes, and
a failing store call as an injected fault value.
-/

namespace FastifyDdb

/-- Attribute values a document-client item can carry in this service:
strings, numbers, booleans and arrays of numbers (OpenLifts). -/
inductive AttrValue where
  | str (s : String)
  | num (q : ℚ)
  | boolean (b : Bool)
  | numList (l : List ℚ)
deriving DecidableEq

/-- A stored item: the composite primary key (Lift partition key,
Metadata sort key) plus the non-key attributes. -/
structure Item where
  Lift : String
  Metadata : String
  attrs : List (String × AttrValue)
deriving DecidableEq

/-- Association-list lookup of a non-key attribute. -/
def lookupAttr : List (String × AttrValue) → String → Option AttrValue
  | [], _ => none
  | (k, v) :: rest, n => if k = n then some v else lookupAttr rest n

/-- Read any attribute of an item, key attributes included. -/
def Item.attr (it : Item) (n : String) : Option AttrValue :=
  if n = "Lift" then some (.str it.Lift)
  else if n = "Metadata" then some (.str it.Metadata)
  else lookupAttr it.attrs n

/-- The table contents; the list order stands for the store's internal
scan order. -/
abbrev Store := List Item

/-- Whether an item sits at the given (Lift, Metadata) key. -/
def keyMatches (it : Item) (lift metadata : String) : Bool :=
  it.Lift == lift && it.Metadata == metadata

/-- GetItem: the item at an exact key, if any. -/
def findItem (s : Store) (lift metadata : String) : Option Item :=
  List.find? (fun it => keyMatches it lift metadata) s

/-- PutItem: unconditionally replace the item at the new item's key
(or append it if the key is vacant). -/
def putItem : Store → Item → Store
  | [], it => [it]
  | x :: xs, it =>
      if keyMatches x it.Lift it.Metadata then it :: xs else x :: putItem xs it

/-- Set one attribute in an association list (overwrite or append). -/
def setAttr : List (String × AttrValue) → String → AttrValue → List (String × AttrValue)
  | [], n, v => [(n, v)]
  | (k, w) :: rest, n, v =>
      if k = n then (n, v) :: rest else (k, w) :: setAttr rest n v

/-- Apply a list of SET actions to an attribute list, left to right. -/
def setAttrs (attrs : List (String × AttrValue)) (sets : List (String × AttrValue)) :
    List (String × AttrValue) :=
  sets.foldl (fun a p => setAttr a p.1 p.2) attrs

/-- UpdateItem with a SET-only update expression and ReturnValues
ALL_NEW: modify the item at the key when present, otherwise create one
holding just the key and the set attributes; return the new store and
the full new item. -/
def updateCommand (s : Store) (lift metadata : String)
    (sets : List (String × AttrValue)) : Store × Item :=
  match findItem s lift metadata with
  | some old =>
      let nw : Item := { old with attrs := setAttrs old.attrs sets }
      (putItem s nw, nw)
  | none =>
      let nw : Item := { Lift := lift, Metadata := metadata, attrs := setAttrs [] sets }
      (s ++ [nw], nw)

/-- An opaque cause of a failed store call (the error the AWS SDK client
would have thrown). -/
structure Fault where
  message : String
deriving DecidableEq

/-- The error classes of `error-handler.ts` that the service can raise:
NotFoundError and DynamoDBError (which keeps the original cause). -/
inductive ServiceError where
  | notFound (message : String)
  | dynamoDB (message : String) (cause : Option Fault)
deriving DecidableEq

/-- HTTP status attached by the error classes: 404 for NotFoundError,
500 for DynamoDBError. -/
def ServiceError.statusCode : ServiceError → Nat
  | .notFound _ => 404
  | .dynamoDB _ _ => 500

/-- The `LiftStatusEnum` of the schemas. -/
inductive LiftStatus where
  | Open | Closed | Pending
deriving DecidableEq

/-- String form written to the store for a lift status. -/
def LiftStatus.asString : LiftStatus → String
  | .Open => "Open"
  | .Closed => "Closed"
  | .Pending => "Pending"

/-- The `AvalancheDangerEnum` of the schemas. -/
inductive AvalancheDanger where
  | Low | Moderate | Considerable | High | Extreme
deriving DecidableEq

/-- String form written to the store for an avalanche danger level. -/
def AvalancheDanger.asString : AvalancheDanger → String
  | .Low => "Low"
  | .Moderate => "Moderate"
  | .Considerable => "Considerable"
  | .High => "High"
  | .Extreme => "Extreme"

/-- Validated input of `createStaticDataSchema`. -/
structure CreateStaticDataInput where
  Lift : String
  ExperiencedRidersOnly : Bool
  VerticalFeet : ℚ
  LiftTime : String

/-- Validated input of `createDynamicDataSchema`. -/
structure CreateDynamicDataInput where
  Lift : String
  Metadata : String
  TotalUniqueLiftRiders : ℚ
  AverageSnowCoverageInches : ℚ
  LiftStatus : LiftStatus
  AvalancheDanger : AvalancheDanger

/-- Validated input of `createResortDataSchema` (no Lift field). -/
structure CreateResortDataInput where
  Metadata : String
  TotalUniqueLiftRiders : ℚ
  AverageSnowCoverageInches : ℚ
  AvalancheDanger : AvalancheDanger
  OpenLifts : List ℚ

/-- The item literal built by `createStaticData`. -/
def createStaticItem (d : CreateStaticDataInput) : Item :=
  { Lift := d.Lift
    Metadata := "Static Data"
    attrs := [("ExperiencedRidersOnly", .boolean d.ExperiencedRidersOnly),
              ("VerticalFeet", .num d.VerticalFeet),
              ("LiftTime", .str d.LiftTime)] }

/-- The item literal built by `createDynamicData`. -/
def createDynamicItem (d : CreateDynamicDataInput) : Item :=
  { Lift := d.Lift
    Metadata := d.Metadata
    attrs := [("TotalUniqueLiftRiders", .num d.TotalUniqueLiftRiders),
              ("AverageSnowCoverageInches", .num d.AverageSnowCoverageInches),
              ("LiftStatus", .str d.LiftStatus.asString),
              ("AvalancheDanger", .str d.AvalancheDanger.asString)] }

/-- The item literal built by `createResortData`; Lift is the literal
"Resort Data". -/
def createResortItem (d : CreateResortDataInput) : Item :=
  { Lift := "Resort Data"
    Metadata := d.Metadata
    attrs := [("TotalUniqueLiftRiders", .num d.TotalUniqueLiftRiders),
              ("AverageSnowCoverageInches", .num d.AverageSnowCoverageInches),
              ("AvalancheDanger", .str d.AvalancheDanger.asString),
              ("OpenLifts", .numList d.OpenLifts)] }

/-- Embeds `SkiLiftService.createStaticData`: put the item unconditionally and
return it; wrap a failed send in DynamoDBError. -/
def createStaticData (s : Store) (fault : Option Fault)
    (d : CreateStaticDataInput) : Store × Except ServiceError Item :=
  match fault with
  | some e => (s, .error (.dynamoDB "Failed to create static data" (some e)))
  | none => (putItem s (createStaticItem d), .ok (createStaticItem d))

/-- Embeds `SkiLiftService.createDynamicData`. -/
def createDynamicData (s : Store) (fault : Option Fault)
    (d : CreateDynamicDataInput) : Store × Except ServiceError Item :=
  match fault with
  | some e => (s, .error (.dynamoDB "Failed to create dynamic data" (some e)))
  | none => (putItem s (createDynamicItem d), .ok (createDynamicItem d))

/-- Embeds `SkiLiftService.createResortData`. -/
def createResortData (s : Store) (fault : Option Fault)
    (d : CreateResortDataInput) : Store × Except ServiceError Item :=
  match fault with
  | some e => (s, .error (.dynamoDB "Failed to create resort data" (some e)))
  | none => (putItem s (createResortItem d), .ok (createResortItem d))

/-- Embeds `SkiLiftService.getSkiLift`: point get; missing item raises
NotFoundError, a failed send is wrapped in DynamoDBError, the
NotFoundError is re-thrown untouched by the catch block. -/
def getSkiLift (s : Store) (fault : Option Fault) (lift metadata : String) :
    Except ServiceError Item :=
  match fault with
  | some e => .error (.dynamoDB "Failed to get ski lift data" (some e))
  | none =>
      match findItem s lift metadata with
      | none => .error (.notFound ("Ski lift data not found for " ++ lift ++ " - " ++ metadata))
      | some it => .ok it

/-- Lexicographic comparison of character lists by code point. -/
def charListLe : List Char → List Char → Bool
  | [], _ => true
  | _ :: _, [] => false
  | a :: as, b :: bs => if a = b then charListLe as bs else decide (a < b)

/-- The lexicographic string order the store uses for string sort keys
(UTF-8 byte order, which coincides with code-point order). -/
def strLe (a b : String) : Bool := charListLe a.data b.data

/-- Insert an element into a list sorted by the Boolean relation le. -/
def insertBy (le : Item → Item → Bool) (x : Item) : List Item → List Item
  | [] => [x]
  | y :: ys => if le x y then x :: y :: ys else y :: insertBy le x ys

/-- Insertion sort by the Boolean relation le. -/
def sortItemsBy (le : Item → Item → Bool) (l : List Item) : List Item :=
  l.foldr (insertBy le) []

/-- Adjacent elements all satisfy le (Boolean sortedness check). -/
def chainBy (le : Item → Item → Bool) : List Item → Bool
  | [] => true
  | [_] => true
  | a :: b :: rest => le a b && chainBy le (b :: rest)

/-- Order used by a table query within one partition: ascending
Metadata sort key. -/
def metaLe (a b : Item) : Bool := strLe a.Metadata b.Metadata

/-- The rider count an item exposes to the secondary index, when it has
a numeric TotalUniqueLiftRiders attribute. -/
def itemRiders (it : Item) : Option ℚ :=
  match lookupAttr it.attrs "TotalUniqueLiftRiders" with
  | some (.num q) => some q
  | _ => none

/-- Rider count defaulted to 0 (only applied to indexed items). -/
def ridersOf (it : Item) : ℚ := (itemRiders it).getD 0

/-- Order produced by the index query with ScanIndexForward false:
non-increasing rider count. -/
def ridersGe (a b : Item) : Bool := decide (ridersOf b ≤ ridersOf a)

/-- The matching items of a table query `Lift = :lift`, in the store's
native ascending sort-key order. -/
def partitionItemsOf (s : Store) (lift : String) : List Item :=
  sortItemsBy metaLe (s.filter (fun it => it.Lift == lift))

/-- Paginated response shape `{items, lastEvaluatedKey, count}`. -/
structure PaginatedResponse where
  items : List Item
  lastEvaluatedKey : Option (String × String)
  count : Nat
deriving DecidableEq

/-- Cut a matching list down to the Limit parameter; report the last
returned key as LastEvaluatedKey when the limit stopped the read before
the matching items were exhausted. -/
def pageOf (matching : List Item) (limit : Nat) : PaginatedResponse :=
  let page := matching.take limit
  { items := page
    lastEvaluatedKey :=
      if limit < matching.length then
        (page.getLast?).map (fun it => (it.Lift, it.Metadata))
      else none
    count := page.length }

/-- Embeds `SkiLiftService.queryLiftData`: table query `Lift = :lift` with a
Limit (default 20); a failed send is wrapped in DynamoDBError. -/
def queryLiftData (s : Store) (fault : Option Fault) (lift : String)
    (limit : Nat := 20) : Except ServiceError PaginatedResponse :=
  match fault with
  | some e => .error (.dynamoDB "Failed to query lift data" (some e))
  | none => .ok (pageOf (partitionItemsOf s lift) limit)

/-- Validated input of `listQuerySchema` handed to the service. -/
structure ListQueryInput where
  limit : Nat
  lastEvaluatedLift : Option String
  lastEvaluatedMetadata : Option String

/-- The ExclusiveStartKey `listSkiLifts` builds: present exactly when
both cursor strings are JavaScript-truthy (present and non-empty). -/
def listCursor (q : ListQueryInput) : Option (String × String) :=
  match q.lastEvaluatedLift, q.lastEvaluatedMetadata with
  | some l, some m => if !(l == "") && !(m == "") then some (l, m) else none
  | _, _ => none

/-- Scan resumption: the items strictly after the ExclusiveStartKey in
scan order (nothing when the key is not found). -/
def afterKey : Store → String × String → List Item
  | [], _ => []
  | x :: xs, k => if keyMatches x k.1 k.2 then xs else afterKey xs k

/-- The portion of the table a scan reads given an optional
ExclusiveStartKey. -/
def scanFrom (s : Store) : Option (String × String) → List Item
  | none => s
  | some k => afterKey s k

/-- Embeds `SkiLiftService.listSkiLifts`: bounded scan with an optional
resumption cursor. -/
def listSkiLifts (s : Store) (fault : Option Fault) (q : ListQueryInput) :
    Except ServiceError PaginatedResponse :=
  match fault with
  | some e => .error (.dynamoDB "Failed to list ski lifts" (some e))
  | none => .ok (pageOf (scanFrom s (listCursor q)) q.limit)

/-- Validated input of `queryByRidersSchema` handed to the service. -/
structure QueryByRidersInput where
  minRiders : Option ℚ
  maxRiders : Option ℚ
  limit : Nat

/-- The rider-range key condition `queryByRiders` builds: BETWEEN when
both bounds are present, a single inequality when one is, nothing when
neither is. -/
def ridersCond (q : QueryByRidersInput) (r : ℚ) : Bool :=
  match q.minRiders, q.maxRiders with
  | some lo, some hi => decide (lo ≤ r) && decide (r ≤ hi)
  | some lo, none => decide (lo ≤ r)
  | none, some hi => decide (r ≤ hi)
  | none, none => true

/-- The items of the SkiLiftsByRiders index matching the key condition,
in the order read with ScanIndexForward false (non-increasing rider
count). Only items carrying a numeric TotalUniqueLiftRiders attribute
are in the index. -/
def queryByRidersMatching (s : Store) (lift : String) (q : QueryByRidersInput) :
    List Item :=
  sortItemsBy ridersGe (s.filter (fun it =>
    it.Lift == lift &&
      match itemRiders it with
      | some r => ridersCond q r
      | none => false))

/-- Embeds `SkiLiftService.queryByRiders`: index query scoped to one lift with
optional rider bounds, descending by rider count, bounded by Limit. -/
def queryByRiders (s : Store) (fault : Option Fault) (lift : String)
    (q : QueryByRidersInput) : Except ServiceError PaginatedResponse :=
  match fault with
  | some e => .error (.dynamoDB "Failed to query by riders" (some e))
  | none => .ok (pageOf (queryByRidersMatching s lift q) q.limit)

/-- Validated input of `updateStaticDataSchema`: every field optional. -/
structure UpdateStaticDataInput where
  ExperiencedRidersOnly : Option Bool
  VerticalFeet : Option ℚ
  LiftTime : Option String

/-- The SET actions `updateStaticData` accumulates: one per field whose
input value is not undefined, in source order. -/
def staticUpdates (d : UpdateStaticDataInput) : List (String × AttrValue) :=
  (match d.ExperiencedRidersOnly with
   | some b => [("ExperiencedRidersOnly", AttrValue.boolean b)]
   | none => []) ++
  (match d.VerticalFeet with
   | some v => [("VerticalFeet", AttrValue.num v)]
   | none => []) ++
  (match d.LiftTime with
   | some t => [("LiftTime", AttrValue.str t)]
   | none => [])

/-- Embeds `SkiLiftService.updateStaticData`: raise "No fields to update" when
no field is present (before any store call), otherwise run an
unconditional update at (lift, "Static Data") returning ALL_NEW. -/
def updateStaticData (s : Store) (fault : Option Fault) (lift : String)
    (d : UpdateStaticDataInput) : Store × Except ServiceError Item :=
  let sets := staticUpdates d
  if sets.isEmpty then
    (s, .error (.dynamoDB "No fields to update" none))
  else
    match fault with
    | some e => (s, .error (.dynamoDB "Failed to update static data" (some e)))
    | none =>
        let r := updateCommand s lift "Static Data" sets
        (r.1, .ok r.2)

/-- Validated input of `updateDynamicDataSchema`: every field optional. -/
structure UpdateDynamicDataInput where
  TotalUniqueLiftRiders : Option ℚ
  AverageSnowCoverageInches : Option ℚ
  LiftStatus : Option LiftStatus
  AvalancheDanger : Option AvalancheDanger

/-- The SET actions `updateDynamicData` accumulates. -/
def dynamicUpdates (d : UpdateDynamicDataInput) : List (String × AttrValue) :=
  (match d.TotalUniqueLiftRiders with
   | some v => [("TotalUniqueLiftRiders", AttrValue.num v)]
   | none => []) ++
  (match d.AverageSnowCoverageInches with
   | some v => [("AverageSnowCoverageInches", AttrValue.num v)]
   | none => []) ++
  (match d.LiftStatus with
   | some v => [("LiftStatus", AttrValue.str v.asString)]
   | none => []) ++
  (match d.AvalancheDanger with
   | some v => [("AvalancheDanger", AttrValue.str v.asString)]
   | none => [])

/-- Embeds `SkiLiftService.updateDynamicData`: same pattern keyed by
(lift, metadata). -/
def updateDynamicData (s : Store) (fault : Option Fault)
    (lift metadata : String) (d : UpdateDynamicDataInput) :
    Store × Except ServiceError Item :=
  let sets := dynamicUpdates d
  if sets.isEmpty then
    (s, .error (.dynamoDB "No fields to update" none))
  else
    match fault with
    | some e => (s, .error (.dynamoDB "Failed to update dynamic data" (some e)))
    | none =>
        let r := updateCommand s lift metadata sets
        (r.1, .ok r.2)

/-- Embeds `SkiLiftService.deleteSkiLift`: unconditional delete by exact key. -/
def deleteSkiLift (s : Store) (fault : Option Fault) (lift metadata : String) :
    Store × Except ServiceError Unit :=
  match fault with
  | some e => (s, .error (.dynamoDB "Failed to delete ski lift data" (some e)))
  | none => (s.filter (fun it => !(keyMatches it lift metadata)), .ok ())

/-- The zod chain `z.coerce.number().positive().max(100)` applied to an
already-coerced number: accept exactly when 0 < x and x ≤ 100. -/
def limitOk : Option ℚ → Bool
  | none => true
  | some x => decide (0 < x) && decide (x ≤ 100)

/-- The limit field of `listQuerySchema` and `queryByRidersSchema`:
default 20 when absent, otherwise the positive().max(100) checks. -/
def parseLimit : Option ℚ → Except String ℚ
  | none => .ok 20
  | some x =>
      if 0 < x then
        if x ≤ 100 then .ok x else .error "Number must be less than or equal to 100"
      else .error "Number must be greater than 0"

/-- Raw (pre-validation) query string of the list route, with limit
already coerced to a number by z.coerce. -/
structure RawListQuery where
  limit : Option ℚ
  lastEvaluatedLift : Option String
  lastEvaluatedMetadata : Option String

/-- The `listQuerySchema.parse` run over the raw query. -/
def parseListQuery (r : RawListQuery) : Except String ListQueryInput :=
  match parseLimit r.limit with
  | .error e => .error e
  | .ok x =>
      .ok { limit := x.floor.toNat
            lastEvaluatedLift := r.lastEvaluatedLift
            lastEvaluatedMetadata := r.lastEvaluatedMetadata }

/-- The GET /api/skilifts handler: a schema rejection is serialized as a
400 ZodError response before the service is invoked; otherwise the
service result is sent (200, or the error's own status code). -/
def listRoute (s : Store) (fault : Option Fault) (r : RawListQuery) :
    Nat × Option PaginatedResponse :=
  match parseListQuery r with
  | .error _ => (400, none)
  | .ok q =>
      match listSkiLifts s fault q with
      | .ok resp => (200, some resp)
      | .error e => (e.statusCode, none)

/-- Whether an Except result is a success. -/
def isOkE {ε α : Type} : Except ε α → Bool
  | .ok _ => true
  | .error _ => false

/-- Items of a paginated service result (empty on error). -/
def respItems : Except ServiceError PaginatedResponse → List Item
  | .ok r => r.items
  | .error _ => []

/-- LastEvaluatedKey of a paginated service result. -/
def respLastKey : Except ServiceError PaginatedResponse → Option (String × String)
  | .ok r => r.lastEvaluatedKey
  | .error _ => none

/-- Strict descending order check on a numeric projection. -/
def strictDescBy (f : Item → ℚ) : List Item → Bool
  | [] => true
  | [_] => true
  | a :: b :: rest => decide (f b < f a) && strictDescBy f (b :: rest)

/-- Fixture: a static record for lift "L". -/
def itemStaticL : Item :=
  { Lift := "L"
    Metadata := "Static Data"
    attrs := [("ExperiencedRidersOnly", .boolean false), ("VerticalFeet", .num 2500),
              ("LiftTime", .str "8:00")] }

/-- Fixture: a dynamic record for lift "L" on 01/01/20 with 100 riders. -/
def itemDyn1 : Item :=
  { Lift := "L"
    Metadata := "01/01/20"
    attrs := [("TotalUniqueLiftRiders", .num 100),
              ("AverageSnowCoverageInches", .num 10),
              ("LiftStatus", .str "Open"),
              ("AvalancheDanger", .str "Low")] }

/-- Fixture: a dynamic record for lift "L" on 01/02/20, also 100 riders
(a rider-count tie with itemDyn1). -/
def itemDyn2 : Item :=
  { Lift := "L"
    Metadata := "01/02/20"
    attrs := [("TotalUniqueLiftRiders", .num 100),
              ("AverageSnowCoverageInches", .num 12),
              ("LiftStatus", .str "Open"),
              ("AvalancheDanger", .str "Low")] }

/-- Fixture: a rider-range query with no bounds and the default limit. -/
def qAll : QueryByRidersInput :=
  { minRiders := none, maxRiders := none, limit := 20 }

/-- Fixture: a static update providing only ExperiencedRidersOnly with
the legitimate value false. -/
def updStaticERO : UpdateStaticDataInput :=
  { ExperiencedRidersOnly := some false, VerticalFeet := none, LiftTime := none }

/-- Fixture: a static update providing only VerticalFeet 3000. -/
def updStaticVF : UpdateStaticDataInput :=
  { ExperiencedRidersOnly := none, VerticalFeet := some 3000, LiftTime := none }

/-- Fixture: a dynamic update providing only TotalUniqueLiftRiders with
the legitimate value 0. -/
def updDynRiders0 : UpdateDynamicDataInput :=
  { TotalUniqueLiftRiders := some 0, AverageSnowCoverageInches := none,
    LiftStatus := none, AvalancheDanger := none }

/-- Fixture: itemStaticL after updStaticVF (only VerticalFeet changed). -/
def itemStaticLVF : Item :=
  { Lift := "L"
    Metadata := "Static Data"
    attrs := [("ExperiencedRidersOnly", .boolean false), ("VerticalFeet", .num 3000),
              ("LiftTime", .str "8:00")] }

/-- Fixture: the partial record an upsert at a vacant key creates from
updStaticVF. -/
def itemUpsertVF : Item :=
  { Lift := "NewLift"
    Metadata := "Static Data"
    attrs := [("VerticalFeet", .num 3000)] }

/-- Fixture: itemDyn1 after updDynRiders0 (only the rider count
changed, to 0). -/
def itemDyn1R0 : Item :=
  { Lift := "L"
    Metadata := "01/01/20"
    attrs := [("TotalUniqueLiftRiders", .num 0),
              ("AverageSnowCoverageInches", .num 10),
              ("LiftStatus", .str "Open"),
              ("AvalancheDanger", .str "Low")] }

/-- Fixture: the partial record a dynamic upsert at the vacant key
("L", "01/05/20") creates from updDynRiders0. -/
def itemUpsertR0 : Item :=
  { Lift := "L"
    Metadata := "01/05/20"
    attrs := [("TotalUniqueLiftRiders", .num 0)] }

/-! ### Store lemmas -/

theorem keyMatches_iff (it : Item) (l m : String) :
    keyMatches it l m = true ↔ it.Lift = l ∧ it.Metadata = m := by
  simp [keyMatches]

theorem findItem_nil (l m : String) : findItem [] l m = none := rfl

theorem findItem_cons (x : Item) (xs : Store) (l m : String) :
    findItem (x :: xs) l m =
      if keyMatches x l m = true then some x else findItem xs l m := by
  by_cases h : keyMatches x l m = true
  · simp [findItem, List.find?_cons_of_pos, h]
  · simp [findItem, List.find?_cons_of_neg, h]

theorem findItem_some_key {s : Store} {l m : String} {it : Item}
    (h : findItem s l m = some it) : it.Lift = l ∧ it.Metadata = m := by
  have := List.find?_some h
  exact (keyMatches_iff it l m).mp this

theorem findItem_putItem_self (s : Store) (it : Item) :
    findItem (putItem s it) it.Lift it.Metadata = some it := by
  have hit : keyMatches it it.Lift it.Metadata = true :=
    (keyMatches_iff _ _ _).mpr ⟨rfl, rfl⟩
  induction s with
  | nil => simp [putItem, findItem_cons, hit]
  | cons x xs ih =>
      cases hx : keyMatches x it.Lift it.Metadata
      · simp [putItem, hx, findItem_cons, ih]
      · simp [putItem, hx, findItem_cons, hit]

theorem findItem_putItem_other (s : Store) (it : Item) (l m : String)
    (h : ¬ (l = it.Lift ∧ m = it.Metadata)) :
    findItem (putItem s it) l m = findItem s l m := by
  have hit : keyMatches it l m = false := by
    cases hkm : keyMatches it l m
    · rfl
    · obtain ⟨h1, h2⟩ := (keyMatches_iff _ _ _).mp hkm
      exact absurd ⟨h1.symm, h2.symm⟩ h
  induction s with
  | nil => simp [putItem, findItem_cons, findItem_nil, hit]
  | cons x xs ih =>
      cases hx : keyMatches x it.Lift it.Metadata
      · simp only [putItem, hx, Bool.false_eq_true, if_false]
        rw [findItem_cons, findItem_cons]
        cases hxl : keyMatches x l m
        · simp [ih]
        · simp
      · obtain ⟨hx1, hx2⟩ := (keyMatches_iff _ _ _).mp hx
        have hxf : keyMatches x l m = false := by
          cases hkm : keyMatches x l m
          · rfl
          · obtain ⟨h1, h2⟩ := (keyMatches_iff _ _ _).mp hkm
            exact absurd ⟨by rw [← h1, hx1], by rw [← h2, hx2]⟩ h
        simp only [putItem, hx, if_true]
        rw [findItem_cons, findItem_cons, hit, hxf]
        simp

theorem findItem_append_of_none {s : Store} {l m : String}
    (t : Store) (h : findItem s l m = none) :
    findItem (s ++ t) l m = findItem t l m := by
  induction s with
  | nil => simp
  | cons x xs ih =>
      rw [findItem_cons] at h
      cases hx : keyMatches x l m
      · rw [hx] at h
        simp only [Bool.false_eq_true, if_false] at h
        rw [List.cons_append, findItem_cons, hx]
        simpa using ih h
      · rw [hx] at h
        simp at h

/-! ### Attribute-list lemmas -/

theorem lookupAttr_setAttr_self (attrs : List (String × AttrValue))
    (n : String) (v : AttrValue) :
    lookupAttr (setAttr attrs n v) n = some v := by
  induction attrs with
  | nil => simp [setAttr, lookupAttr]
  | cons p rest ih =>
      by_cases h : p.1 = n
      · simp [setAttr, h, lookupAttr]
      · simp [setAttr, h, lookupAttr, ih]

theorem lookupAttr_setAttr_ne (attrs : List (String × AttrValue))
    (n : String) (v : AttrValue) (m : String) (h : n ≠ m) :
    lookupAttr (setAttr attrs n v) m = lookupAttr attrs m := by
  induction attrs with
  | nil => simp [setAttr, lookupAttr, h]
  | cons p rest ih =>
      by_cases hp : p.1 = n
      · simp [setAttr, hp, lookupAttr, h, hp ▸ h]
      · simp [setAttr, hp, lookupAttr, ih]

theorem setAttrs_cons (attrs : List (String × AttrValue))
    (p : String × AttrValue) (rest : List (String × AttrValue)) :
    setAttrs attrs (p :: rest) = setAttrs (setAttr attrs p.1 p.2) rest := rfl

theorem lookupAttr_setAttrs_not_mem (attrs : List (String × AttrValue))
    (sets : List (String × AttrValue)) (m : String)
    (h : m ∉ sets.map Prod.fst) :
    lookupAttr (setAttrs attrs sets) m = lookupAttr attrs m := by
  induction sets generalizing attrs with
  | nil => rfl
  | cons p rest ih =>
      rw [List.map_cons] at h
      have hm1 : p.1 ≠ m := fun he => h (List.mem_cons.mpr (Or.inl he.symm))
      have hm2 : m ∉ rest.map Prod.fst := fun he => h (List.mem_cons.mpr (Or.inr he))
      rw [setAttrs_cons, ih _ hm2, lookupAttr_setAttr_ne _ _ _ _ hm1]

theorem lookupAttr_setAttrs_mem (attrs : List (String × AttrValue))
    (sets : List (String × AttrValue)) (m : String) (v : AttrValue)
    (hnd : (sets.map Prod.fst).Nodup) (h : (m, v) ∈ sets) :
    lookupAttr (setAttrs attrs sets) m = some v := by
  induction sets generalizing attrs with
  | nil => simp at h
  | cons p rest ih =>
      rw [List.map_cons] at hnd
      rcases List.mem_cons.mp h with he | hr
      · have hp1 : p.1 = m := by rw [← he]
        have hp2 : p.2 = v := by rw [← he]
        have hm : m ∉ rest.map Prod.fst := by
          rw [← hp1]
          exact (List.nodup_cons.mp hnd).1
        rw [setAttrs_cons, lookupAttr_setAttrs_not_mem _ _ _ hm, hp1, hp2]
        exact lookupAttr_setAttr_self _ _ _
      · exact setAttrs_cons attrs p rest ▸ ih _ (List.nodup_cons.mp hnd).2 hr

/-! ### Sorting lemmas -/

theorem chainBy_cons_cons (le : Item → Item → Bool) (a b : Item) (rest : List Item) :
    chainBy le (a :: b :: rest) = (le a b && chainBy le (b :: rest)) := rfl

theorem insertBy_pos {le : Item → Item → Bool} {x y : Item} (ys : List Item)
    (h : le x y = true) : insertBy le x (y :: ys) = x :: y :: ys := by
  simp [insertBy, h]

theorem insertBy_neg {le : Item → Item → Bool} {x y : Item} (ys : List Item)
    (h : le x y = false) : insertBy le x (y :: ys) = y :: insertBy le x ys := by
  simp [insertBy, h]

theorem mem_insertBy (le : Item → Item → Bool) (x a : Item) :
    ∀ l : List Item, a ∈ insertBy le x l ↔ a = x ∨ a ∈ l := by
  intro l
  induction l with
  | nil => simp [insertBy]
  | cons y ys ih =>
      cases h : le x y
      · rw [insertBy_neg ys h, List.mem_cons, ih, List.mem_cons]
        tauto
      · rw [insertBy_pos ys h]
        simp

theorem sortItemsBy_cons (le : Item → Item → Bool) (y : Item) (ys : List Item) :
    sortItemsBy le (y :: ys) = insertBy le y (sortItemsBy le ys) := rfl

theorem mem_sortItemsBy (le : Item → Item → Bool) (a : Item) (l : List Item) :
    a ∈ sortItemsBy le l ↔ a ∈ l := by
  induction l with
  | nil => simp [sortItemsBy]
  | cons y ys ih =>
      rw [sortItemsBy_cons, mem_insertBy, ih]
      exact (List.mem_cons).symm

theorem chainBy_insertBy (le : Item → Item → Bool)
    (htot : ∀ a b, le a b = false → le b a = true) (x : Item) :
    ∀ l : List Item, chainBy le l = true → chainBy le (insertBy le x l) = true := by
  intro l
  induction l with
  | nil => intro _; simp [insertBy, chainBy]
  | cons y ys ih =>
      intro hch
      cases h : le x y
      · have hyx := htot _ _ h
        rw [insertBy_neg ys h]
        cases ys with
        | nil =>
            simp [insertBy, chainBy, hyx]
        | cons z zs =>
            rw [chainBy_cons_cons, Bool.and_eq_true] at hch
            obtain ⟨hyz, hch'⟩ := hch
            have hrec := ih hch'
            cases hz : le x z
            · rw [insertBy_neg zs hz] at hrec ⊢
              rw [chainBy_cons_cons, Bool.and_eq_true]
              exact ⟨hyz, hrec⟩
            · rw [insertBy_pos zs hz] at hrec ⊢
              rw [chainBy_cons_cons, Bool.and_eq_true]
              exact ⟨hyx, hrec⟩
      · rw [insertBy_pos ys h, chainBy_cons_cons, Bool.and_eq_true]
        exact ⟨h, hch⟩

theorem chainBy_sortItemsBy (le : Item → Item → Bool)
    (htot : ∀ a b, le a b = false → le b a = true) (l : List Item) :
    chainBy le (sortItemsBy le l) = true := by
  induction l with
  | nil => rfl
  | cons y ys ih =>
      rw [sortItemsBy_cons]
      exact chainBy_insertBy le htot y _ ih

theorem chainBy_take (le : Item → Item → Bool) :
    ∀ (l : List Item) (n : Nat), chainBy le l = true → chainBy le (l.take n) = true := by
  intro l
  induction l with
  | nil => intro n _; simp [chainBy]
  | cons y ys ih =>
      intro n hch
      cases n with
      | zero => simp [chainBy]
      | succ k =>
          cases ys with
          | nil => simp [List.take, chainBy]
          | cons z zs =>
              rw [chainBy_cons_cons, Bool.and_eq_true] at hch
              obtain ⟨h1, h2⟩ := hch
              cases k with
              | zero => simp [List.take, chainBy]
              | succ j =>
                  have hrec := ih (j + 1) h2
                  rw [show (y :: z :: zs).take (j + 1 + 1) = y :: z :: zs.take j by
                    simp [List.take]]
                  rw [show (z :: zs).take (j + 1) = z :: zs.take j by
                    simp [List.take]] at hrec
                  rw [chainBy_cons_cons, Bool.and_eq_true]
                  exact ⟨h1, hrec⟩

theorem charListLe_total : ∀ as bs : List Char,
    charListLe as bs = false → charListLe bs as = true := by
  intro as
  induction as with
  | nil => intro bs h; simp [charListLe] at h
  | cons x xs ih =>
      intro bs h
      cases bs with
      | nil => simp [charListLe]
      | cons y ys =>
          by_cases hxy : x = y
          · subst hxy
            simp only [charListLe, if_pos rfl] at h ⊢
            exact ih ys h
          · simp only [charListLe, if_neg hxy] at h
            have hlt : ¬ x < y := by simpa using h
            have hgt : y < x := by
              rcases lt_or_gt_of_ne hxy with hc | hc
              · exact absurd hc hlt
              · exact hc
            simp [charListLe, Ne.symm hxy, hgt]

theorem strLe_total (a b : String) (h : strLe a b = false) : strLe b a = true :=
  charListLe_total a.data b.data h

theorem metaLe_total (a b : Item) (h : metaLe a b = false) : metaLe b a = true :=
  strLe_total _ _ h

theorem ridersGe_total (a b : Item) (h : ridersGe a b = false) : ridersGe b a = true := by
  unfold ridersGe at *
  simp only [decide_eq_false_iff_not, not_le] at h
  simp [le_of_lt h]

/-! ### Service-level unfolding lemmas -/

theorem updateCommand_found {s : Store} {lift metadata : String}
    (sets : List (String × AttrValue)) {old : Item}
    (h : findItem s lift metadata = some old) :
    updateCommand s lift metadata sets =
      (putItem s { old with attrs := setAttrs old.attrs sets },
       { old with attrs := setAttrs old.attrs sets }) := by
  unfold updateCommand
  rw [h]

theorem updateCommand_missing {s : Store} {lift metadata : String}
    (sets : List (String × AttrValue))
    (h : findItem s lift metadata = none) :
    updateCommand s lift metadata sets =
      (s ++ [{ Lift := lift, Metadata := metadata, attrs := setAttrs [] sets }],
       { Lift := lift, Metadata := metadata, attrs := setAttrs [] sets }) := by
  unfold updateCommand
  rw [h]

theorem updateStaticData_run (s : Store) (lift : String) (d : UpdateStaticDataInput)
    (hne : (staticUpdates d).isEmpty = false) :
    updateStaticData s none lift d =
      ((updateCommand s lift "Static Data" (staticUpdates d)).1,
       .ok (updateCommand s lift "Static Data" (staticUpdates d)).2) := by
  simp [updateStaticData, hne]

theorem updateDynamicData_run (s : Store) (lift metadata : String)
    (d : UpdateDynamicDataInput)
    (hne : (dynamicUpdates d).isEmpty = false) :
    updateDynamicData s none lift metadata d =
      ((updateCommand s lift metadata (dynamicUpdates d)).1,
       .ok (updateCommand s lift metadata (dynamicUpdates d)).2) := by
  simp [updateDynamicData, hne]

theorem staticUpdates_isEmpty (d : UpdateStaticDataInput) :
    (staticUpdates d).isEmpty = true ↔
      d.ExperiencedRidersOnly = none ∧ d.VerticalFeet = none ∧ d.LiftTime = none := by
  cases hE : d.ExperiencedRidersOnly <;> cases hV : d.VerticalFeet <;>
    cases hL : d.LiftTime <;> simp [staticUpdates, hE, hV, hL]

theorem dynamicUpdates_isEmpty (d : UpdateDynamicDataInput) :
    (dynamicUpdates d).isEmpty = true ↔
      d.TotalUniqueLiftRiders = none ∧ d.AverageSnowCoverageInches = none ∧
        d.LiftStatus = none ∧ d.AvalancheDanger = none := by
  cases hT : d.TotalUniqueLiftRiders <;> cases hA : d.AverageSnowCoverageInches <;>
    cases hL : d.LiftStatus <;> cases hD : d.AvalancheDanger <;>
      simp [dynamicUpdates, hT, hA, hL, hD]

theorem staticUpdates_names (d : UpdateStaticDataInput) :
    ∀ n ∈ (staticUpdates d).map Prod.fst,
      n = "ExperiencedRidersOnly" ∨ n = "VerticalFeet" ∨ n = "LiftTime" := by
  intro n hn
  cases hE : d.ExperiencedRidersOnly <;> cases hV : d.VerticalFeet <;>
    cases hL : d.LiftTime <;> simp [staticUpdates, hE, hV, hL] at hn <;> tauto

theorem dynamicUpdates_names (d : UpdateDynamicDataInput) :
    ∀ n ∈ (dynamicUpdates d).map Prod.fst,
      n = "TotalUniqueLiftRiders" ∨ n = "AverageSnowCoverageInches" ∨
        n = "LiftStatus" ∨ n = "AvalancheDanger" := by
  intro n hn
  cases hT : d.TotalUniqueLiftRiders <;> cases hA : d.AverageSnowCoverageInches <;>
    cases hL : d.LiftStatus <;> cases hD : d.AvalancheDanger <;>
      simp [dynamicUpdates, hT, hA, hL, hD] at hn <;> tauto

theorem staticUpdates_nodup (d : UpdateStaticDataInput) :
    ((staticUpdates d).map Prod.fst).Nodup := by
  cases hE : d.ExperiencedRidersOnly <;> cases hV : d.VerticalFeet <;>
    cases hL : d.LiftTime <;> simp [staticUpdates, hE, hV, hL]

theorem dynamicUpdates_nodup (d : UpdateDynamicDataInput) :
    ((dynamicUpdates d).map Prod.fst).Nodup := by
  cases hT : d.TotalUniqueLiftRiders <;> cases hA : d.AverageSnowCoverageInches <;>
    cases hL : d.LiftStatus <;> cases hD : d.AvalancheDanger <;>
      simp [dynamicUpdates, hT, hA, hL, hD]

theorem attr_update_frame (old : Item) (sets : List (String × AttrValue))
    (n : String) (h : n ∉ sets.map Prod.fst) :
    Item.attr { old with attrs := setAttrs old.attrs sets } n = old.attr n := by
  unfold Item.attr
  by_cases h1 : n = "Lift"
  · simp [h1]
  · by_cases h2 : n = "Metadata"
    · simp [h1, h2]
    · simp only [if_neg h1, if_neg h2]
      exact lookupAttr_setAttrs_not_mem _ _ _ h

theorem attr_update_set (old : Item) (sets : List (String × AttrValue))
    (n : String) (v : AttrValue)
    (hnd : (sets.map Prod.fst).Nodup) (hmem : (n, v) ∈ sets)
    (h1 : n ≠ "Lift") (h2 : n ≠ "Metadata") :
    Item.attr { old with attrs := setAttrs old.attrs sets } n = some v := by
  unfold Item.attr
  rw [if_neg h1, if_neg h2]
  exact lookupAttr_setAttrs_mem _ _ _ _ hnd hmem

theorem attr_mk_set (lift metadata : String) (sets : List (String × AttrValue))
    (n : String) (v : AttrValue)
    (hnd : (sets.map Prod.fst).Nodup) (hmem : (n, v) ∈ sets)
    (h1 : n ≠ "Lift") (h2 : n ≠ "Metadata") :
    Item.attr { Lift := lift, Metadata := metadata, attrs := setAttrs [] sets } n =
      some v := by
  unfold Item.attr
  rw [if_neg h1, if_neg h2]
  exact lookupAttr_setAttrs_mem _ _ _ _ hnd hmem

theorem attr_mk_unset (lift metadata : String) (sets : List (String × AttrValue))
    (n : String) (h : n ∉ sets.map Prod.fst)
    (h1 : n ≠ "Lift") (h2 : n ≠ "Metadata") :
    Item.attr { Lift := lift, Metadata := metadata, attrs := setAttrs [] sets } n =
      none := by
  unfold Item.attr
  rw [if_neg h1, if_neg h2, lookupAttr_setAttrs_not_mem _ _ _ h]
  rfl

/-! ### Claim theorems -/

/-- C1: for every valid create input, the record returned by
createStaticData, createDynamicData and createResortData equals the
input merged with the service-assigned fields (Metadata forced to
"Static Data" for static creates, Lift forced to "Resort Data" for
resort creates, all other fields copied unchanged), and the write is an
unconditional put: after the call the item sits at its key whatever the
prior store contents were. -/
theorem create_round_trip (s : Store) (ds : CreateStaticDataInput)
    (dd : CreateDynamicDataInput) (dr : CreateResortDataInput) :
    ((createStaticData s none ds).2 = .ok (createStaticItem ds) ∧
      (createStaticItem ds).Lift = ds.Lift ∧
      (createStaticItem ds).Metadata = "Static Data" ∧
      (createStaticItem ds).attr "ExperiencedRidersOnly" =
        some (.boolean ds.ExperiencedRidersOnly) ∧
      (createStaticItem ds).attr "VerticalFeet" = some (.num ds.VerticalFeet) ∧
      (createStaticItem ds).attr "LiftTime" = some (.str ds.LiftTime) ∧
      findItem (createStaticData s none ds).1 ds.Lift "Static Data" =
        some (createStaticItem ds)) ∧
    ((createDynamicData s none dd).2 = .ok (createDynamicItem dd) ∧
      (createDynamicItem dd).Lift = dd.Lift ∧
      (createDynamicItem dd).Metadata = dd.Metadata ∧
      (createDynamicItem dd).attr "TotalUniqueLiftRiders" =
        some (.num dd.TotalUniqueLiftRiders) ∧
      (createDynamicItem dd).attr "AverageSnowCoverageInches" =
        some (.num dd.AverageSnowCoverageInches) ∧
      (createDynamicItem dd).attr "LiftStatus" = some (.str dd.LiftStatus.asString) ∧
      (createDynamicItem dd).attr "AvalancheDanger" =
        some (.str dd.AvalancheDanger.asString) ∧
      findItem (createDynamicData s none dd).1 dd.Lift dd.Metadata =
        some (createDynamicItem dd)) ∧
    ((createResortData s none dr).2 = .ok (createResortItem dr) ∧
      (createResortItem dr).Lift = "Resort Data" ∧
      (createResortItem dr).Metadata = dr.Metadata ∧
      (createResortItem dr).attr "TotalUniqueLiftRiders" =
        some (.num dr.TotalUniqueLiftRiders) ∧
      (createResortItem dr).attr "AverageSnowCoverageInches" =
        some (.num dr.AverageSnowCoverageInches) ∧
      (createResortItem dr).attr "AvalancheDanger" =
        some (.str dr.AvalancheDanger.asString) ∧
      (createResortItem dr).attr "OpenLifts" = some (.numList dr.OpenLifts) ∧
      findItem (createResortData s none dr).1 "Resort Data" dr.Metadata =
        some (createResortItem dr)) :=
  ⟨⟨rfl, rfl, rfl, rfl, rfl, rfl, findItem_putItem_self s (createStaticItem ds)⟩,
   ⟨rfl, rfl, rfl, rfl, rfl, rfl, rfl, findItem_putItem_self s (createDynamicItem dd)⟩,
   ⟨rfl, rfl, rfl, rfl, rfl, rfl, rfl, findItem_putItem_self s (createResortItem dr)⟩⟩

/-- C2: getSkiLift raises NotFoundError (status 404) exactly when the
store has no item at the key, re-raises nothing else in that case; any
failed store call becomes a DynamoDBError carrying the original cause;
otherwise the stored item is returned unchanged. -/
theorem getSkiLift_contract (s : Store) (lift metadata : String) (e : Fault) :
    (findItem s lift metadata = none →
      getSkiLift s none lift metadata =
        .error (.notFound ("Ski lift data not found for " ++ lift ++ " - " ++ metadata)) ∧
      (ServiceError.notFound
        ("Ski lift data not found for " ++ lift ++ " - " ++ metadata)).statusCode = 404) ∧
    getSkiLift s (some e) lift metadata =
      .error (.dynamoDB "Failed to get ski lift data" (some e)) ∧
    (∀ it : Item, findItem s lift metadata = some it →
      getSkiLift s none lift metadata = .ok it) := by
  refine ⟨fun h => ⟨?_, rfl⟩, rfl, fun it h => ?_⟩
  · simp [getSkiLift, h]
  · simp [getSkiLift, h]

/-- C2 witness: the three branches at concrete stores and keys. -/
theorem getSkiLift_contract_witness :
    getSkiLift [] none "Summit Express" "Static Data" =
      .error (.notFound "Ski lift data not found for Summit Express - Static Data") ∧
    getSkiLift [itemDyn1] (some ⟨"socket timeout"⟩) "L" "01/01/20" =
      .error (.dynamoDB "Failed to get ski lift data" (some ⟨"socket timeout"⟩)) ∧
    getSkiLift [itemDyn1] none "L" "01/01/20" = .ok itemDyn1 :=
  ⟨((getSkiLift_contract [] "Summit Express" "Static Data" ⟨"socket timeout"⟩).1 rfl).1,
   (getSkiLift_contract [itemDyn1] "L" "01/01/20" ⟨"socket timeout"⟩).2.1,
   (getSkiLift_contract [itemDyn1] "L" "01/01/20" ⟨"socket timeout"⟩).2.2 itemDyn1 rfl⟩

/-- C5: an update whose input provides no field raises a DynamoDBError
with message "No fields to update" (status 500) regardless of any fault,
and the store is returned unchanged (no write is issued). -/
theorem update_empty_fields (s : Store) (fault : Option Fault)
    (lift metadata : String)
    (ds : UpdateStaticDataInput) (dd : UpdateDynamicDataInput)
    (hs : ds.ExperiencedRidersOnly = none ∧ ds.VerticalFeet = none ∧ ds.LiftTime = none)
    (hd : dd.TotalUniqueLiftRiders = none ∧ dd.AverageSnowCoverageInches = none ∧
      dd.LiftStatus = none ∧ dd.AvalancheDanger = none) :
    updateStaticData s fault lift ds =
      (s, .error (.dynamoDB "No fields to update" none)) ∧
    updateDynamicData s fault lift metadata dd =
      (s, .error (.dynamoDB "No fields to update" none)) ∧
    (ServiceError.dynamoDB "No fields to update" none).statusCode = 500 := by
  have he1 : (staticUpdates ds).isEmpty = true := (staticUpdates_isEmpty ds).mpr hs
  have he2 : (dynamicUpdates dd).isEmpty = true := (dynamicUpdates_isEmpty dd).mpr hd
  exact ⟨by simp [updateStaticData, he1], by simp [updateDynamicData, he2], rfl⟩

/-- C5 witness: the all-absent update inputs at a concrete store with a
fault injected, showing the empty check fires before the store call. -/
theorem update_empty_fields_witness :
    updateStaticData [itemStaticL] (some ⟨"socket timeout"⟩) "L"
        { ExperiencedRidersOnly := none, VerticalFeet := none, LiftTime := none } =
      ([itemStaticL], .error (.dynamoDB "No fields to update" none)) ∧
    updateDynamicData [itemDyn1] (some ⟨"socket timeout"⟩) "L" "01/01/20"
        { TotalUniqueLiftRiders := none, AverageSnowCoverageInches := none,
          LiftStatus := none, AvalancheDanger := none } =
      ([itemDyn1], .error (.dynamoDB "No fields to update" none)) := by
  have h := update_empty_fields [itemStaticL] (some ⟨"socket timeout"⟩) "L" "01/01/20"
    { ExperiencedRidersOnly := none, VerticalFeet := none, LiftTime := none }
    { TotalUniqueLiftRiders := none, AverageSnowCoverageInches := none,
      LiftStatus := none, AvalancheDanger := none }
    ⟨rfl, rfl, rfl⟩ ⟨rfl, rfl, rfl, rfl⟩
  have h2 := update_empty_fields [itemDyn1] (some ⟨"socket timeout"⟩) "L" "01/01/20"
    { ExperiencedRidersOnly := none, VerticalFeet := none, LiftTime := none }
    { TotalUniqueLiftRiders := none, AverageSnowCoverageInches := none,
      LiftStatus := none, AvalancheDanger := none }
    ⟨rfl, rfl, rfl⟩ ⟨rfl, rfl, rfl, rfl⟩
  exact ⟨h.1, h2.2.1⟩

/-- C3: a field participates in the update expression of
updateStaticData or updateDynamicData exactly when it is explicitly
present (not undefined) in the input; the values 0 and false are
included when present; and a field that is absent leaves the stored
attribute unchanged in the updated record. -/
theorem update_field_presence (d : UpdateStaticDataInput) (d4 : UpdateDynamicDataInput) :
    (("ExperiencedRidersOnly" ∈ (staticUpdates d).map Prod.fst ↔
        d.ExperiencedRidersOnly ≠ none) ∧
     ("VerticalFeet" ∈ (staticUpdates d).map Prod.fst ↔ d.VerticalFeet ≠ none) ∧
     ("LiftTime" ∈ (staticUpdates d).map Prod.fst ↔ d.LiftTime ≠ none)) ∧
    (("TotalUniqueLiftRiders" ∈ (dynamicUpdates d4).map Prod.fst ↔
        d4.TotalUniqueLiftRiders ≠ none) ∧
     ("AverageSnowCoverageInches" ∈ (dynamicUpdates d4).map Prod.fst ↔
        d4.AverageSnowCoverageInches ≠ none) ∧
     ("LiftStatus" ∈ (dynamicUpdates d4).map Prod.fst ↔ d4.LiftStatus ≠ none) ∧
     ("AvalancheDanger" ∈ (dynamicUpdates d4).map Prod.fst ↔ d4.AvalancheDanger ≠ none)) ∧
    ((∀ b, d.ExperiencedRidersOnly = some b →
        ("ExperiencedRidersOnly", AttrValue.boolean b) ∈ staticUpdates d) ∧
     (∀ q, d4.TotalUniqueLiftRiders = some q →
        ("TotalUniqueLiftRiders", AttrValue.num q) ∈ dynamicUpdates d4)) ∧
    ((∀ (s s2 : Store) (lift : String) (old nw : Item),
        findItem s lift "Static Data" = some old →
        updateStaticData s none lift d = (s2, .ok nw) →
        ∀ n, n ∉ (staticUpdates d).map Prod.fst → nw.attr n = old.attr n) ∧
     (∀ (s s2 : Store) (lift metadata : String) (old nw : Item),
        findItem s lift metadata = some old →
        updateDynamicData s none lift metadata d4 = (s2, .ok nw) →
        ∀ n, n ∉ (dynamicUpdates d4).map Prod.fst → nw.attr n = old.attr n)) := by
  refine ⟨⟨?_, ?_, ?_⟩, ⟨?_, ?_, ?_, ?_⟩, ⟨?_, ?_⟩, ⟨?_, ?_⟩⟩
  · cases hE : d.ExperiencedRidersOnly <;> cases hV : d.VerticalFeet <;>
      cases hL : d.LiftTime <;> simp [staticUpdates, hE, hV, hL]
  · cases hE : d.ExperiencedRidersOnly <;> cases hV : d.VerticalFeet <;>
      cases hL : d.LiftTime <;> simp [staticUpdates, hE, hV, hL]
  · cases hE : d.ExperiencedRidersOnly <;> cases hV : d.VerticalFeet <;>
      cases hL : d.LiftTime <;> simp [staticUpdates, hE, hV, hL]
  · cases hT : d4.TotalUniqueLiftRiders <;> cases hA : d4.AverageSnowCoverageInches <;>
      cases hL : d4.LiftStatus <;> cases hD : d4.AvalancheDanger <;>
        simp [dynamicUpdates, hT, hA, hL, hD]
  · cases hT : d4.TotalUniqueLiftRiders <;> cases hA : d4.AverageSnowCoverageInches <;>
      cases hL : d4.LiftStatus <;> cases hD : d4.AvalancheDanger <;>
        simp [dynamicUpdates, hT, hA, hL, hD]
  · cases hT : d4.TotalUniqueLiftRiders <;> cases hA : d4.AverageSnowCoverageInches <;>
      cases hL : d4.LiftStatus <;> cases hD : d4.AvalancheDanger <;>
        simp [dynamicUpdates, hT, hA, hL, hD]
  · cases hT : d4.TotalUniqueLiftRiders <;> cases hA : d4.AverageSnowCoverageInches <;>
      cases hL : d4.LiftStatus <;> cases hD : d4.AvalancheDanger <;>
        simp [dynamicUpdates, hT, hA, hL, hD]
  · intro b hb
    simp [staticUpdates, hb]
  · intro q hq
    simp [dynamicUpdates, hq]
  · intro s s2 lift old nw hfind hupd n hn
    by_cases hemp : (staticUpdates d).isEmpty = true
    · rw [updateStaticData] at hupd
      simp only [hemp, if_true] at hupd
      exact absurd (congrArg Prod.snd hupd).symm (by simp)
    · have hne : (staticUpdates d).isEmpty = false := by simpa using hemp
      rw [updateStaticData_run s lift d hne,
        updateCommand_found (staticUpdates d) hfind] at hupd
      have h2 : Except.ok (ε := ServiceError)
          { old with attrs := setAttrs old.attrs (staticUpdates d) } = .ok nw :=
        congrArg Prod.snd hupd
      injection h2 with h2
      rw [← h2]
      exact attr_update_frame old (staticUpdates d) n hn
  · intro s s2 lift metadata old nw hfind hupd n hn
    by_cases hemp : (dynamicUpdates d4).isEmpty = true
    · rw [updateDynamicData] at hupd
      simp only [hemp, if_true] at hupd
      exact absurd (congrArg Prod.snd hupd).symm (by simp)
    · have hne : (dynamicUpdates d4).isEmpty = false := by simpa using hemp
      rw [updateDynamicData_run s lift metadata d4 hne,
        updateCommand_found (dynamicUpdates d4) hfind] at hupd
      have h2 : Except.ok (ε := ServiceError)
          { old with attrs := setAttrs old.attrs (dynamicUpdates d4) } = .ok nw :=
        congrArg Prod.snd hupd
      injection h2 with h2
      rw [← h2]
      exact attr_update_frame old (dynamicUpdates d4) n hn

/-- C3 witness: false and 0 are included when present, and an absent
LiftTime is left unchanged by a concrete update. -/
theorem update_field_presence_witness :
    ("ExperiencedRidersOnly", AttrValue.boolean false) ∈ staticUpdates updStaticERO ∧
    ("TotalUniqueLiftRiders", AttrValue.num 0) ∈ dynamicUpdates updDynRiders0 ∧
    Item.attr itemStaticLVF "LiftTime" = Item.attr itemStaticL "LiftTime" :=
  ⟨(update_field_presence updStaticERO updDynRiders0).2.2.1.1 false rfl,
   (update_field_presence updStaticERO updDynRiders0).2.2.1.2 0 rfl,
   (update_field_presence updStaticVF updDynRiders0).2.2.2.1
     [itemStaticL] [itemStaticLVF] "L" itemStaticL itemStaticLVF rfl rfl
     "LiftTime" (by decide)⟩

/-- C4: on an existing record, an update with a non-empty field subset
succeeds, changes exactly the supplied fields, keeps the primary key and
every other attribute unchanged, leaves every other key of the store
untouched, and returns the full post-update record as stored; each
operation is covered independently, for every store holding a record at
its own key. -/
theorem update_frame_effect :
    (∀ (s : Store) (lift : String) (d : UpdateStaticDataInput) (old : Item),
      findItem s lift "Static Data" = some old → staticUpdates d ≠ [] →
      isOkE (updateStaticData s none lift d).2 = true ∧
      (∀ nw : Item, (updateStaticData s none lift d).2 = .ok nw →
        nw.Lift = old.Lift ∧ nw.Metadata = old.Metadata ∧
        (∀ n v, (n, v) ∈ staticUpdates d → nw.attr n = some v) ∧
        (∀ n, n ∉ (staticUpdates d).map Prod.fst → nw.attr n = old.attr n) ∧
        findItem (updateStaticData s none lift d).1 lift "Static Data" = some nw) ∧
      (∀ l m, ¬ (l = lift ∧ m = "Static Data") →
        findItem (updateStaticData s none lift d).1 l m = findItem s l m)) ∧
    (∀ (s : Store) (lift metadata : String) (d4 : UpdateDynamicDataInput)
        (old : Item),
      findItem s lift metadata = some old → dynamicUpdates d4 ≠ [] →
      isOkE (updateDynamicData s none lift metadata d4).2 = true ∧
      (∀ nw : Item, (updateDynamicData s none lift metadata d4).2 = .ok nw →
        nw.Lift = old.Lift ∧ nw.Metadata = old.Metadata ∧
        (∀ n v, (n, v) ∈ dynamicUpdates d4 → nw.attr n = some v) ∧
        (∀ n, n ∉ (dynamicUpdates d4).map Prod.fst → nw.attr n = old.attr n) ∧
        findItem (updateDynamicData s none lift metadata d4).1 lift metadata =
          some nw) ∧
      (∀ l m, ¬ (l = lift ∧ m = metadata) →
        findItem (updateDynamicData s none lift metadata d4).1 l m =
          findItem s l m)) := by
  constructor
  · intro s lift d old hS hne
    have hne' : (staticUpdates d).isEmpty = false := by
      cases hq : staticUpdates d
      · exact absurd hq hne
      · rfl
    obtain ⟨hkl, hkm⟩ := findItem_some_key hS
    rw [updateStaticData_run s lift d hne',
      updateCommand_found (staticUpdates d) hS]
    dsimp only
    refine ⟨rfl, ?_, ?_⟩
    · intro nw hnw
      injection hnw with hnw
      subst hnw
      refine ⟨rfl, rfl, ?_, ?_, ?_⟩
      · intro n v hnv
        have hone := staticUpdates_names d n (List.mem_map_of_mem Prod.fst hnv)
        rcases hone with h | h | h <;> subst h <;>
          exact attr_update_set old (staticUpdates d) _ v
            (staticUpdates_nodup d) hnv (by decide) (by decide)
      · intro n hn
        exact attr_update_frame old (staticUpdates d) n hn
      · rw [← hkl, ← hkm]
        exact findItem_putItem_self s _
    · intro l m hlm
      refine findItem_putItem_other s _ l m ?_
      rw [show ({ old with
          attrs := setAttrs old.attrs (staticUpdates d) } : Item).Lift = old.Lift
        from rfl, show ({ old with
          attrs := setAttrs old.attrs (staticUpdates d) } : Item).Metadata = old.Metadata
        from rfl, hkl, hkm]
      exact hlm
  · intro s lift metadata d4 old hD hne
    have hne' : (dynamicUpdates d4).isEmpty = false := by
      cases hq : dynamicUpdates d4
      · exact absurd hq hne
      · rfl
    obtain ⟨hkl, hkm⟩ := findItem_some_key hD
    rw [updateDynamicData_run s lift metadata d4 hne',
      updateCommand_found (dynamicUpdates d4) hD]
    dsimp only
    refine ⟨rfl, ?_, ?_⟩
    · intro nw hnw
      injection hnw with hnw
      subst hnw
      refine ⟨rfl, rfl, ?_, ?_, ?_⟩
      · intro n v hnv
        have hone := dynamicUpdates_names d4 n (List.mem_map_of_mem Prod.fst hnv)
        rcases hone with h | h | h | h <;> subst h <;>
          exact attr_update_set old (dynamicUpdates d4) _ v
            (dynamicUpdates_nodup d4) hnv (by decide) (by decide)
      · intro n hn
        exact attr_update_frame old (dynamicUpdates d4) n hn
      · rw [← hkl, ← hkm]
        exact findItem_putItem_self s _
    · intro l m hlm
      refine findItem_putItem_other s _ l m ?_
      rw [show ({ old with
          attrs := setAttrs old.attrs (dynamicUpdates d4) } : Item).Lift = old.Lift
        from rfl, show ({ old with
          attrs := setAttrs old.attrs (dynamicUpdates d4) } : Item).Metadata = old.Metadata
        from rfl, hkl, hkm]
      exact hlm

/-- C4 witness: updating VerticalFeet on a concrete store changes that
field, keeps LiftTime and the key, and leaves the other sort key
untouched; updating the rider count to 0 works on a store holding no
static record for the lift. -/
theorem update_frame_effect_witness :
    Item.attr itemStaticLVF "VerticalFeet" = some (.num 3000) ∧
    Item.attr itemStaticLVF "LiftTime" = Item.attr itemStaticL "LiftTime" ∧
    itemStaticLVF.Lift = itemStaticL.Lift ∧
    findItem (updateStaticData [itemStaticL, itemDyn1] none "L" updStaticVF).1
      "L" "01/01/20" = findItem [itemStaticL, itemDyn1] "L" "01/01/20" ∧
    Item.attr itemDyn1R0 "TotalUniqueLiftRiders" = some (.num 0) ∧
    Item.attr itemDyn1R0 "LiftStatus" = Item.attr itemDyn1 "LiftStatus" ∧
    findItem (updateDynamicData [itemDyn1] none "L" "01/01/20" updDynRiders0).1
      "L" "01/01/20" = some itemDyn1R0 := by
  have hstat := update_frame_effect.1 [itemStaticL, itemDyn1] "L" updStaticVF
    itemStaticL rfl (by decide)
  have hdyn := update_frame_effect.2 [itemDyn1] "L" "01/01/20" updDynRiders0
    itemDyn1 rfl (by decide)
  have h2 := hstat.2.1 itemStaticLVF rfl
  have h3 := hdyn.2.1 itemDyn1R0 rfl
  exact ⟨h2.2.2.1 "VerticalFeet" (.num 3000) (by decide),
    h2.2.2.2.1 "LiftTime" (by decide), h2.1,
    hstat.2.2 "L" "01/01/20" (by decide),
    h3.2.2.1 "TotalUniqueLiftRiders" (.num 0) (by decide),
    h3.2.2.2.1 "LiftStatus" (by decide),
    h3.2.2.2.2⟩

/-- C10: the updates never raise a not-found failure; at a vacant key a
non-empty update performs an unconditional upsert creating a record
holding only the primary key plus the supplied fields, returns that
partial record, and stores it at the key; each operation is covered
independently, for every store with that operation's own key vacant. -/
theorem update_upsert_missing :
    (∀ (s : Store) (f : Option Fault) (l : String) (du : UpdateStaticDataInput)
        (msg : String), (updateStaticData s f l du).2 ≠ .error (.notFound msg)) ∧
    (∀ (s : Store) (f : Option Fault) (l m : String) (du : UpdateDynamicDataInput)
        (msg : String), (updateDynamicData s f l m du).2 ≠ .error (.notFound msg)) ∧
    (∀ (s : Store) (lift : String) (d : UpdateStaticDataInput),
      findItem s lift "Static Data" = none → staticUpdates d ≠ [] →
      isOkE (updateStaticData s none lift d).2 = true ∧
      ∀ nw : Item, (updateStaticData s none lift d).2 = .ok nw →
        nw.Lift = lift ∧ nw.Metadata = "Static Data" ∧
        (∀ n v, (n, v) ∈ staticUpdates d → nw.attr n = some v) ∧
        (∀ n, n ≠ "Lift" → n ≠ "Metadata" →
            n ∉ (staticUpdates d).map Prod.fst → nw.attr n = none) ∧
        findItem (updateStaticData s none lift d).1 lift "Static Data" = some nw) ∧
    (∀ (s : Store) (lift metadata : String) (d4 : UpdateDynamicDataInput),
      findItem s lift metadata = none → dynamicUpdates d4 ≠ [] →
      isOkE (updateDynamicData s none lift metadata d4).2 = true ∧
      ∀ nw : Item, (updateDynamicData s none lift metadata d4).2 = .ok nw →
        nw.Lift = lift ∧ nw.Metadata = metadata ∧
        (∀ n v, (n, v) ∈ dynamicUpdates d4 → nw.attr n = some v) ∧
        (∀ n, n ≠ "Lift" → n ≠ "Metadata" →
            n ∉ (dynamicUpdates d4).map Prod.fst → nw.attr n = none) ∧
        findItem (updateDynamicData s none lift metadata d4).1 lift metadata =
          some nw) := by
  refine ⟨?_, ?_, ?_, ?_⟩
  · intro s f l du msg
    by_cases he : (staticUpdates du).isEmpty = true
    · simp [updateStaticData, he]
    · have he' : (staticUpdates du).isEmpty = false := by simpa using he
      cases f with
      | none => simp [updateStaticData, he']
      | some e => simp [updateStaticData, he']
  · intro s f l m du msg
    by_cases he : (dynamicUpdates du).isEmpty = true
    · simp [updateDynamicData, he]
    · have he' : (dynamicUpdates du).isEmpty = false := by simpa using he
      cases f with
      | none => simp [updateDynamicData, he']
      | some e => simp [updateDynamicData, he']
  · intro s lift d hS hne
    have hne' : (staticUpdates d).isEmpty = false := by
      cases hq : staticUpdates d
      · exact absurd hq hne
      · rfl
    rw [updateStaticData_run s lift d hne',
      updateCommand_missing (staticUpdates d) hS]
    dsimp only
    refine ⟨rfl, ?_⟩
    intro nw hnw
    injection hnw with hnw
    subst hnw
    refine ⟨rfl, rfl, ?_, ?_, ?_⟩
    · intro n v hnv
      have hone := staticUpdates_names d n (List.mem_map_of_mem Prod.fst hnv)
      rcases hone with h | h | h <;> subst h <;>
        exact attr_mk_set lift "Static Data" (staticUpdates d) _ v
          (staticUpdates_nodup d) hnv (by decide) (by decide)
    · intro n h1 h2 hn
      exact attr_mk_unset lift "Static Data" (staticUpdates d) n hn h1 h2
    · rw [findItem_append_of_none _ hS, findItem_cons,
        if_pos ((keyMatches_iff _ _ _).mpr ⟨rfl, rfl⟩)]
  · intro s lift metadata d4 hD hne
    have hne' : (dynamicUpdates d4).isEmpty = false := by
      cases hq : dynamicUpdates d4
      · exact absurd hq hne
      · rfl
    rw [updateDynamicData_run s lift metadata d4 hne',
      updateCommand_missing (dynamicUpdates d4) hD]
    dsimp only
    refine ⟨rfl, ?_⟩
    intro nw hnw
    injection hnw with hnw
    subst hnw
    refine ⟨rfl, rfl, ?_, ?_, ?_⟩
    · intro n v hnv
      have hone := dynamicUpdates_names d4 n (List.mem_map_of_mem Prod.fst hnv)
      rcases hone with h | h | h | h <;> subst h <;>
        exact attr_mk_set lift metadata (dynamicUpdates d4) _ v
          (dynamicUpdates_nodup d4) hnv (by decide) (by decide)
    · intro n h1 h2 hn
      exact attr_mk_unset lift metadata (dynamicUpdates d4) n hn h1 h2
    · rw [findItem_append_of_none _ hD, findItem_cons,
        if_pos ((keyMatches_iff _ _ _).mpr ⟨rfl, rfl⟩)]

/-- C10 witness: upserts at vacant keys create partial records: a static
upsert on the empty store, and a dynamic upsert at a fresh date on a
store that already holds the lift's static record. -/
theorem update_upsert_missing_witness :
    isOkE (updateStaticData [] none "NewLift" updStaticVF).2 = true ∧
    Item.attr itemUpsertVF "VerticalFeet" = some (.num 3000) ∧
    Item.attr itemUpsertVF "ExperiencedRidersOnly" = none ∧
    findItem (updateStaticData [] none "NewLift" updStaticVF).1
      "NewLift" "Static Data" = some itemUpsertVF ∧
    isOkE (updateDynamicData [itemStaticL] none "L" "01/05/20" updDynRiders0).2 =
      true ∧
    Item.attr itemUpsertR0 "TotalUniqueLiftRiders" = some (.num 0) ∧
    Item.attr itemUpsertR0 "AverageSnowCoverageInches" = none ∧
    findItem (updateDynamicData [itemStaticL] none "L" "01/05/20" updDynRiders0).1
      "L" "01/05/20" = some itemUpsertR0 := by
  have hstat := update_upsert_missing.2.2.1 [] "NewLift" updStaticVF rfl (by decide)
  have hdyn := update_upsert_missing.2.2.2 [itemStaticL] "L" "01/05/20"
    updDynRiders0 rfl (by decide)
  have h2 := hstat.2 itemUpsertVF rfl
  have h3 := hdyn.2 itemUpsertR0 rfl
  exact ⟨hstat.1, h2.2.2.1 "VerticalFeet" (.num 3000) (by decide),
    h2.2.2.2.1 "ExperiencedRidersOnly" (by decide) (by decide) (by decide),
    h2.2.2.2.2, hdyn.1,
    h3.2.2.1 "TotalUniqueLiftRiders" (.num 0) (by decide),
    h3.2.2.2.1 "AverageSnowCoverageInches" (by decide) (by decide) (by decide),
    h3.2.2.2.2⟩

/-- C9: listSkiLifts applies the pagination cursor only when both
lastEvaluatedLift and lastEvaluatedMetadata are supplied and non-empty;
a half-specified or empty-string cursor is silently ignored and the scan
starts from the beginning, with no error. -/
theorem list_cursor_semantics (s : Store) (q : ListQueryInput) :
    ((q.lastEvaluatedLift = none ∨ q.lastEvaluatedLift = some "" ∨
      q.lastEvaluatedMetadata = none ∨ q.lastEvaluatedMetadata = some "") →
      listSkiLifts s none q = .ok (pageOf s q.limit) ∧
      listSkiLifts s none q = listSkiLifts s none
        { limit := q.limit, lastEvaluatedLift := none,
          lastEvaluatedMetadata := none }) ∧
    (∀ l m, q.lastEvaluatedLift = some l → q.lastEvaluatedMetadata = some m →
      l ≠ "" → m ≠ "" →
      listSkiLifts s none q = .ok (pageOf (afterKey s (l, m)) q.limit)) := by
  constructor
  · intro h
    have hc : listCursor q = none := by
      rcases h with h | h | h | h
      · cases hM : q.lastEvaluatedMetadata <;> simp [listCursor, h, hM]
      · cases hM : q.lastEvaluatedMetadata <;> simp [listCursor, h, hM]
      · cases hL : q.lastEvaluatedLift <;> simp [listCursor, h, hL]
      · cases hL : q.lastEvaluatedLift <;> simp [listCursor, h, hL]
    have hrun : listSkiLifts s none q =
        .ok (pageOf (scanFrom s (listCursor q)) q.limit) := rfl
    exact ⟨by rw [hrun, hc]; rfl, by rw [hrun, hc]; rfl⟩
  · intro l m hl hm hlne hmne
    have hc : listCursor q = some (l, m) := by
      simp [listCursor, hl, hm, hlne, hmne]
    have hrun : listSkiLifts s none q =
        .ok (pageOf (scanFrom s (listCursor q)) q.limit) := rfl
    rw [hrun, hc]
    rfl

/-- C9 witness: a half cursor and an empty-string cursor are ignored on
a concrete store; a full non-empty cursor resumes after its key. -/
theorem list_cursor_semantics_witness :
    listSkiLifts [itemStaticL, itemDyn1] none
        { limit := 20, lastEvaluatedLift := some "L",
          lastEvaluatedMetadata := none } =
      .ok (pageOf [itemStaticL, itemDyn1] 20) ∧
    listSkiLifts [itemStaticL, itemDyn1] none
        { limit := 20, lastEvaluatedLift := some "L",
          lastEvaluatedMetadata := some "" } =
      listSkiLifts [itemStaticL, itemDyn1] none
        { limit := 20, lastEvaluatedLift := none,
          lastEvaluatedMetadata := none } ∧
    listSkiLifts [itemStaticL, itemDyn1] none
        { limit := 20, lastEvaluatedLift := some "L",
          lastEvaluatedMetadata := some "Static Data" } =
      .ok (pageOf (afterKey [itemStaticL, itemDyn1] ("L", "Static Data")) 20) :=
  ⟨((list_cursor_semantics [itemStaticL, itemDyn1]
      { limit := 20, lastEvaluatedLift := some "L",
        lastEvaluatedMetadata := none }).1 (Or.inr (Or.inr (Or.inl rfl)))).1,
   ((list_cursor_semantics [itemStaticL, itemDyn1]
      { limit := 20, lastEvaluatedLift := some "L",
        lastEvaluatedMetadata := some "" }).1
        (Or.inr (Or.inr (Or.inr rfl)))).2,
   (list_cursor_semantics [itemStaticL, itemDyn1]
      { limit := 20, lastEvaluatedLift := some "L",
        lastEvaluatedMetadata := some "Static Data" }).2 "L" "Static Data"
     rfl rfl (by decide) (by decide)⟩

/-- C6 counterexample: two records of lift "L" share the rider count
100, so queryByRiders returns them adjacently with equal rider counts —
the order is not strictly descending. -/
theorem queryByRiders_tie_counterexample :
    (respItems (queryByRiders [itemDyn1, itemDyn2] none "L" qAll)).map ridersOf =
      [100, 100] ∧
    strictDescBy ridersOf
      (respItems (queryByRiders [itemDyn1, itemDyn2] none "L" qAll)) = false :=
  ⟨rfl, rfl⟩

/-- C6 (amended): queryByRiders returns only items of the lift whose
rider count satisfies the given bounds (closed range when both are
present, the single inequality when one is, no constraint when none is),
in non-increasing rider-count order — strictly descending only when the
returned rider counts are distinct, since items may tie. -/
theorem queryByRiders_range_spec (s : Store) (lift : String)
    (q : QueryByRidersInput) :
    isOkE (queryByRiders s none lift q) = true ∧
    (∀ it ∈ respItems (queryByRiders s none lift q),
        it.Lift = lift ∧
        ∃ r, itemRiders it = some r ∧
          (∀ lo, q.minRiders = some lo → lo ≤ r) ∧
          (∀ hi, q.maxRiders = some hi → r ≤ hi)) ∧
    (q.minRiders = none → q.maxRiders = none →
      ∀ it ∈ s, it.Lift = lift → (itemRiders it).isSome = true →
        it ∈ queryByRidersMatching s lift q) ∧
    chainBy ridersGe (respItems (queryByRiders s none lift q)) = true := by
  refine ⟨rfl, ?_, ?_, ?_⟩
  · intro it hit
    have hmem : it ∈ queryByRidersMatching s lift q :=
      List.take_subset _ _ hit
    rw [queryByRidersMatching, mem_sortItemsBy] at hmem
    obtain ⟨hins, hp⟩ := List.mem_filter.mp hmem
    rw [Bool.and_eq_true] at hp
    obtain ⟨hlift, hcond⟩ := hp
    refine ⟨by simpa using hlift, ?_⟩
    cases hr : itemRiders it with
    | none => rw [hr] at hcond; simp at hcond
    | some r =>
        rw [hr] at hcond
        have hcond' : ridersCond q r = true := hcond
        refine ⟨r, rfl, ?_, ?_⟩
        · intro lo hlo
          cases hmax : q.maxRiders with
          | none => simpa [ridersCond, hlo, hmax] using hcond'
          | some hi =>
              exact (by simpa [ridersCond, hlo, hmax] using hcond' :
                lo ≤ r ∧ r ≤ hi).1
        · intro hi hhi
          cases hmin : q.minRiders with
          | none => simpa [ridersCond, hmin, hhi] using hcond'
          | some lo =>
              exact (by simpa [ridersCond, hmin, hhi] using hcond' :
                lo ≤ r ∧ r ≤ hi).2
  · intro hmin hmax it hits hlift hsome
    obtain ⟨r, hr⟩ := Option.isSome_iff_exists.mp hsome
    rw [queryByRidersMatching, mem_sortItemsBy]
    refine List.mem_filter.mpr ⟨hits, ?_⟩
    simp [hlift, hr, ridersCond, hmin, hmax]
  · exact chainBy_take ridersGe _ q.limit
      (chainBy_sortItemsBy ridersGe ridersGe_total _)

/-- C6 witness: the amended specification evaluated on the tie store. -/
theorem queryByRiders_range_spec_witness :
    isOkE (queryByRiders [itemDyn1, itemDyn2] none "L" qAll) = true ∧
    chainBy ridersGe
      (respItems (queryByRiders [itemDyn1, itemDyn2] none "L" qAll)) = true ∧
    itemDyn1 ∈ queryByRidersMatching [itemDyn1, itemDyn2] "L" qAll :=
  ⟨(queryByRiders_range_spec [itemDyn1, itemDyn2] "L" qAll).1,
   (queryByRiders_range_spec [itemDyn1, itemDyn2] "L" qAll).2.2.2,
   (queryByRiders_range_spec [itemDyn1, itemDyn2] "L" qAll).2.2.1 rfl rfl
     itemDyn1 (by simp) rfl rfl⟩

/-- C7 counterexample: the limit chain accepts coerced numbers outside
[1, 100]: the value 1/2 passes positive().max(100) although it is below
1, so acceptance is not equivalent to membership in [1, 100]. -/
theorem limit_half_counterexample :
    limitOk (some (1/2)) = true ∧
    parseLimit (some (1/2)) = .ok (1/2) ∧
    ¬ ((1 : ℚ) ≤ 1/2) := by
  refine ⟨?_, ?_, by norm_num⟩
  · simp only [limitOk, Bool.and_eq_true, decide_eq_true_eq]
    norm_num
  · have he : parseLimit (some (1/2 : ℚ)) =
        if (0 : ℚ) < 1/2 then
          (if (1/2 : ℚ) ≤ 100 then .ok (1/2 : ℚ)
           else .error "Number must be less than or equal to 100")
        else .error "Number must be greater than 0" := rfl
    rw [he, if_pos (by norm_num), if_pos (by norm_num)]

/-- C7 (amended): the limit chain shared by listQuerySchema and
queryByRidersSchema accepts a present coerced value exactly when
0 < limit ≤ 100 (for integer limits, exactly when it lies in [1, 100]
inclusive); an absent limit defaults to 20; and a list request with
limit=0 is rejected with HTTP 400 without the service being invoked. -/
theorem limit_validation (x : ℚ) (n : ℕ) :
    (limitOk (some x) = true ↔ 0 < x ∧ x ≤ 100) ∧
    (parseLimit (some x) = .ok x ↔ 0 < x ∧ x ≤ 100) ∧
    (limitOk (some (n : ℚ)) = true ↔ 1 ≤ n ∧ n ≤ 100) ∧
    parseLimit none = .ok 20 ∧
    (∀ (s : Store) (f : Option Fault) (ll lm : Option String),
      listRoute s f
        { limit := some 0
          lastEvaluatedLift := ll
          lastEvaluatedMetadata := lm } = (400, none)) := by
  have he : ∀ y : ℚ, parseLimit (some y) =
      if 0 < y then
        (if y ≤ 100 then .ok y
         else .error "Number must be less than or equal to 100")
      else .error "Number must be greater than 0" := fun _ => rfl
  refine ⟨?_, ?_, ?_, rfl, ?_⟩
  · simp [limitOk, Bool.and_eq_true, decide_eq_true_eq]
  · rw [he x]
    by_cases h1 : 0 < x
    · by_cases h2 : x ≤ 100
      · simp [h1, h2]
      · simp [h1, h2]
    · simp [h1]
  · simp only [limitOk, Bool.and_eq_true, decide_eq_true_eq]
    constructor
    · intro ⟨a, b⟩
      have a' : 0 < n := by exact_mod_cast a
      have b' : n ≤ 100 := by exact_mod_cast b
      exact ⟨by omega, b'⟩
    · intro ⟨a, b⟩
      have a' : 0 < n := by omega
      exact ⟨by exact_mod_cast a', by exact_mod_cast b⟩
  · intro s f ll lm
    rfl

/-- C8 counterexample: queryLiftData returns the partition in ascending
lexicographic Metadata order, in which the date string "01/01/20" sorts
before the literal "Static Data" (digits precede uppercase letters), not
after it as the claimed ordering note states. -/
theorem queryLiftData_order_counterexample :
    (respItems (queryLiftData [itemStaticL, itemDyn1] none "L" 20)).map
      Item.Metadata = ["01/01/20", "Static Data"] ∧
    strLe "Static Data" "01/01/20" = false ∧
    strLe "01/01/20" "Static Data" = true :=
  ⟨rfl, rfl, rfl⟩

/-- C8 (amended): queryLiftData returns at most limit items, all of the
requested lift, in ascending lexicographic Metadata order (ascending
date for zero-padded dates), with a pagination cursor exactly when more
matching items remain; under this order numeric date strings such as
"01/01/20" sort before the literal "Static Data". -/
theorem queryLiftData_page_spec (s : Store) (lift : String) (limit : Nat)
    (hpos : 0 < limit) :
    isOkE (queryLiftData s none lift limit) = true ∧
    (respItems (queryLiftData s none lift limit)).length ≤ limit ∧
    chainBy metaLe (respItems (queryLiftData s none lift limit)) = true ∧
    (∀ it ∈ respItems (queryLiftData s none lift limit), it.Lift = lift) ∧
    ((respLastKey (queryLiftData s none lift limit)).isSome = true ↔
      limit < (partitionItemsOf s lift).length) ∧
    strLe "01/01/20" "Static Data" = true ∧
    strLe "Static Data" "01/01/20" = false := by
  refine ⟨rfl, ?_, ?_, ?_, ?_, rfl, rfl⟩
  · show ((partitionItemsOf s lift).take limit).length ≤ limit
    simp [List.length_take]
  · exact chainBy_take metaLe _ limit (chainBy_sortItemsBy metaLe metaLe_total _)
  · intro it hit
    have hmem : it ∈ partitionItemsOf s lift := List.take_subset _ _ hit
    rw [partitionItemsOf, mem_sortItemsBy] at hmem
    have := (List.mem_filter.mp hmem).2
    simpa using this
  · show (pageOf (partitionItemsOf s lift) limit).lastEvaluatedKey.isSome = true ↔ _
    rw [pageOf]
    by_cases hlt : limit < (partitionItemsOf s lift).length
    · have hne : (partitionItemsOf s lift).take limit ≠ [] := by
        have hl : 0 < ((partitionItemsOf s lift).take limit).length := by
          rw [List.length_take]
          omega
        exact List.ne_nil_of_length_pos hl
      simp [hlt, Option.isSome_map, List.getLast?_isSome, hne]
    · simp [hlt]

/-- C8 witness: the amended page specification evaluated on a concrete
two-item store with the default limit. -/
theorem queryLiftData_page_spec_witness :
    0 < 20 ∧
    (respItems (queryLiftData [itemStaticL, itemDyn1] none "L" 20)).length ≤ 20 ∧
    chainBy metaLe (respItems (queryLiftData [itemStaticL, itemDyn1] none "L" 20)) =
      true :=
  ⟨by decide,
   (queryLiftData_page_spec [itemStaticL, itemDyn1] "L" 20 (by decide)).2.1,
   (queryLiftData_page_spec [itemStaticL, itemDyn1] "L" 20 (by decide)).2.2.1⟩

end FastifyDdb
